import Mathlib

/-!
Shallow embedding of the MFlix data-access layer: `CommentsDAO`
(comments collection: insert/update/delete and the most-active-commenters
aggregation) and `MoviesDAO` (movies collection: paginated filtered listing,
get-by-id with a comments lookup, and the faceted search aggregation).

The database engine is an external collaborator: driver calls are modelled
either by explicit list-level semantics (`find`/`updateOne`/`deleteOne`/
`countDocuments` over the collection contents) or, where only the call's
success or failure matters to the DAO, by an `Except`-valued parameter
standing for the awaited driver call.
-/

namespace MFlix

/-- A JavaScript `Error` value, carrying its message string. -/
structure JsError where
  message : String
deriving DecidableEq

/-- The string produced by JavaScript `Error.prototype.toString()` for an
`Error` value: `"Error: "` followed by the message. -/
def errorToString (e : JsError) : String := "Error: " ++ e.message

/-- JavaScript `String.prototype.startsWith(pre)`, character by character. -/
def jsStartsWith (s pre : String) : Bool := pre.toList.isPrefixOf s.toList

/-- The message of the error thrown by the bson `ObjectId` constructor on a
malformed identifier. -/
def invalidIdMessage : String :=
  "Argument passed in must be a single String of 12 bytes or a string of 24 hex characters"

/-- A hexadecimal digit, as accepted by the bson `ObjectId` constructor. -/
def isHexDigit (c : Char) : Bool :=
  (decide (48 ≤ c.toNat) && decide (c.toNat ≤ 57))
    || (decide (97 ≤ c.toNat) && decide (c.toNat ≤ 102))
    || (decide (65 ≤ c.toNat) && decide (c.toNat ≤ 70))

/-- Syntactic validity of a bson `ObjectId` input string: a single string of
12 bytes or a string of 24 hex characters. -/
def isValidObjectId (s : String) : Bool :=
  s.length == 12 || (s.length == 24 && s.toList.all isHexDigit)

/-- A bson `ObjectId` value, abstracted as its underlying identifier string. -/
structure OId where
  val : String
deriving DecidableEq

/-- The bson `ObjectId(id)` constructor: returns an `ObjectId` for a valid
input and throws (`Except.error`) the invalid-argument error otherwise. -/
def objectId (s : String) : Except JsError OId :=
  if isValidObjectId s then .ok ⟨s⟩ else .error ⟨invalidIdMessage⟩

/-- A stored comment document (`commentsDAO.js`): name and email of the
author, the movie it refers to, the comment text and its date. -/
structure Comment where
  id : OId
  name : String
  email : String
  movie_id : OId
  text : String
  date : String
deriving DecidableEq

/-- The driver result of `updateOne`: how many documents matched the filter
and how many were modified. -/
structure UpdateResult where
  matchedCount : Nat
  modifiedCount : Nat
deriving DecidableEq

/-- The driver result of `deleteOne`. -/
structure DeleteResult where
  deletedCount : Nat
deriving DecidableEq

/-- MongoDB `updateOne` on the comments collection with filter
`{_id: oid, email: userEmail}` and update `{$set: {text, date}}`: the first
document matching the filter gets its text and date replaced; the result
reports the matched count and the modified count (zero when the set values
equal the stored ones). Returns the new collection contents with the
driver result. -/
def updateOne : List Comment → OId → String → String → String →
    List Comment × UpdateResult
  | [], _, _, _, _ => ([], ⟨0, 0⟩)
  | c :: cs, oid, userEmail, text, date =>
    if c.id = oid ∧ c.email = userEmail then
      ((⟨c.id, c.name, c.email, c.movie_id, text, date⟩ : Comment) :: cs,
        ⟨1, if c.text = text ∧ c.date = date then 0 else 1⟩)
    else
      let r := updateOne cs oid userEmail text date
      (c :: r.1, r.2)

/-- MongoDB `deleteOne` on the comments collection with filter
`{_id: oid, email: userEmail}`: removes the first matching document. -/
def deleteOne : List Comment → OId → String → List Comment × DeleteResult
  | [], _, _ => ([], ⟨0⟩)
  | c :: cs, oid, userEmail =>
    if c.id = oid ∧ c.email = userEmail then (cs, ⟨1⟩)
    else
      let r := deleteOne cs oid userEmail
      (c :: r.1, r.2)

/-- The value a comments-DAO operation resolves to: either the driver
response or the catch block's `{error: e}` wrapper. -/
inductive DAOResponse (α : Type) where
  | resp (r : α)
  | errWrapper (e : JsError)
deriving DecidableEq

/-- `$group` stage of `mostActiveCommenters` (`_id: "$email"`,
`count: {$sum: 1}`): one output per distinct email paired with the number of
comments bearing that email. -/
def groupByEmail (cs : List Comment) : List (String × Nat) :=
  ((cs.map Comment.email).dedup).map fun e => (e, (cs.map Comment.email).count e)

/-- The order imposed by the `$sort: {count: -1}` stage: counts descending. -/
def countDescRel (a b : String × Nat) : Prop := b.2 ≤ a.2

instance : DecidableRel countDescRel := fun a b =>
  inferInstanceAs (Decidable (b.2 ≤ a.2))

instance : IsTotal (String × Nat) countDescRel :=
  ⟨fun a b => Nat.le_total b.2 a.2⟩

instance : IsTrans (String × Nat) countDescRel :=
  ⟨fun _ _ _ hab hbc => Nat.le_trans hbc hab⟩

/-- A collection handle (`conn.db(ns).collection(name)`). -/
structure CollectionHandle where
  ns : String
  name : String
deriving DecidableEq

/-- A database handle (`conn.db(ns)`), as stored in `MoviesDAO.#mflix`. -/
structure DbHandle where
  ns : String
deriving DecidableEq

namespace CommentsDAO

/-- `CommentsDAO.injectDB(conn)`: returns immediately when the module-level
`comments` handle is already set; otherwise stores the handle obtained from
`conn.db(MFLIX_NS).collection("comments")`, or leaves it unset when that
call throws (the catch block only logs). The awaited driver call is the
`conn` parameter. -/
def injectDB (state : Option CollectionHandle)
    (conn : Except JsError CollectionHandle) : Option CollectionHandle :=
  match state with
  | some _ => state
  | none =>
    match conn with
    | .ok h => some h
    | .error _ => none

/-- `CommentsDAO.updateComment(commentId, userEmail, text, date)`: issues
`updateOne` with the owning email composed into the filter alongside the
parsed comment id; a throw (malformed comment id) is caught and returned as
an `{error}` wrapper with the collection contents untouched. -/
def updateComment (state : List Comment) (commentId userEmail text date : String) :
    List Comment × DAOResponse UpdateResult :=
  match objectId commentId with
  | .error e => (state, .errWrapper e)
  | .ok oid =>
    let r := updateOne state oid userEmail text date
    (r.1, .resp r.2)

/-- `CommentsDAO.deleteComment(commentId, userEmail)`: issues `deleteOne`
with the owning email composed into the filter alongside the parsed comment
id; a throw is caught and returned as an `{error}` wrapper. -/
def deleteComment (state : List Comment) (commentId userEmail : String) :
    List Comment × DAOResponse DeleteResult :=
  match objectId commentId with
  | .error e => (state, .errWrapper e)
  | .ok oid =>
    let r := deleteOne state oid userEmail
    (r.1, .resp r.2)

/-- `CommentsDAO.mostActiveCommenters()`: aggregates comments grouped by
email with a count, sorted by count descending, limited to 20. The try/catch
around the aggregate call is modelled by `aggFails`: on a driver failure the
DAO returns the `{error}` wrapper instead of the aggregation result. -/
def mostActiveCommenters (cs : List Comment) (aggFails : Option JsError) :
    DAOResponse (List (String × Nat)) :=
  match aggFails with
  | some e => .errWrapper e
  | none => .resp ((List.insertionSort countDescRel (groupByEmail cs)).take 20)

end CommentsDAO

/-- The static state of `MoviesDAO`: the `#mflix` db handle and the
`#movies` collection handle. -/
structure MoviesState where
  mflix : Option DbHandle
  movies : Option CollectionHandle
deriving DecidableEq

/-- A movie document, with the fields the DAO's queries and sorts consult.
`terms` abstracts the engine's text index over the document (the search
texts it matches the document against) and `score` its `textScore` meta
value; both belong to the external database engine. -/
structure Movie where
  title : String
  cast : List String
  genres : List String
  terms : List String
  numReviews : Nat
  score : Nat
deriving DecidableEq

/-- A find/match filter built by the movies DAO. -/
inductive Query where
  | all
  | text (search : String)
  | castIn (cast : List String)
  | genreIn (genres : List String)
deriving DecidableEq

/-- Whether a movie matches a query: `$in` on an array-valued field holds
when the stored array and the given list share an element; `$text` matching
is the engine's, abstracted through the document's `terms`. -/
def matchesQuery : Query → Movie → Bool
  | .all, _ => true
  | .text s, m => m.terms.contains s
  | .castIn l, m => m.cast.any fun c => l.contains c
  | .genreIn l, m => m.genres.any fun g => l.contains g

/-- A sort order used by the movies DAO. -/
inductive SortSpec where
  | byNumReviewsDesc
  | byTextScore
deriving DecidableEq

/-- `DEFAULT_SORT = [["tomatoes.viewer.numReviews", -1]]`. -/
def DEFAULT_SORT : SortSpec := .byNumReviewsDesc

/-- A projection used by the movies DAO: empty, or the `textScore` meta
projection of the text search. -/
inductive Projection where
  | empty
  | withScore
deriving DecidableEq

/-- A parsed query, project and sort bundle (`QueryParams` in the source). -/
structure QueryParams where
  query : Query
  project : Projection
  sort : SortSpec
deriving DecidableEq

/-- A JavaScript value supplied under the `cast` or `genre` key: either a
string or an array of strings. -/
inductive JsStrings where
  | str (s : String)
  | arr (l : List String)
deriving DecidableEq

/-- JavaScript truthiness of such a value: the empty string is falsy, every
array (even the empty one) is truthy. -/
def JsStrings.truthy : JsStrings → Bool
  | .str s => !(s == "")
  | .arr _ => true

/-- The `Array.isArray(x) ? x : x.split(", ")` normalization shared by the
cast and genre search queries. -/
def JsStrings.toSearchList : JsStrings → List String
  | .arr l => l
  | .str s => s.splitOn ", "

/-- A `filters` object: each field is `some` exactly when the corresponding
key is present (`"text" in filters`, and so on). -/
structure Filters where
  text : Option String := none
  cast : Option JsStrings := none
  genre : Option JsStrings := none
deriving DecidableEq

namespace MoviesDAO

/-- `MoviesDAO.injectDB(conn)`: returns immediately when `#movies` is
already set; otherwise runs `#mflix = await conn.db(ns)` and then
`#movies = await conn.db(ns).collection("movies")`. When either await
throws, the assignments already made stand and the catch block only logs;
the two awaited driver calls are the `dbCall` and `collectionCall`
parameters. -/
def injectDB (s : MoviesState) (dbCall : Except JsError DbHandle)
    (collectionCall : Except JsError CollectionHandle) : MoviesState :=
  match s.movies with
  | some _ => s
  | none =>
    match dbCall with
    | .error _ => s
    | .ok dbh =>
      match collectionCall with
      | .error _ => { s with mflix := some dbh }
      | .ok ch => { mflix := some dbh, movies := some ch }

/-- `MoviesDAO.textSearchQuery(text)`: `$text` query, `textScore` meta
projection and sort. -/
def textSearchQuery (text : String) : QueryParams :=
  { query := .text text, project := .withScore, sort := .byTextScore }

/-- `MoviesDAO.castSearchQuery(cast)`: `$in` on the cast array, empty
projection, default sort. -/
def castSearchQuery (cast : JsStrings) : QueryParams :=
  { query := .castIn cast.toSearchList, project := .empty, sort := DEFAULT_SORT }

/-- `MoviesDAO.genreSearchQuery(genre)`: `$in` on the genres array, empty
projection, default sort. -/
def genreSearchQuery (genre : JsStrings) : QueryParams :=
  { query := .genreIn genre.toSearchList, project := .empty, sort := DEFAULT_SORT }

/-- The query-params selection at the top of `MoviesDAO.getMovies`:
`"text" in filters` wins over `"cast" in filters`, which wins over
`"genre" in filters`; with no filters object, or with none of the three
keys present, destructuring the empty `queryParams` yields the defaults
`query = {}`, `project = {}`, `sort = DEFAULT_SORT`. -/
def getMoviesQueryParams (filters : Option Filters) : QueryParams :=
  match filters with
  | none => { query := .all, project := .empty, sort := DEFAULT_SORT }
  | some f =>
    match f.text with
    | some t => textSearchQuery t
    | none =>
      match f.cast with
      | some c => castSearchQuery c
      | none =>
        match f.genre with
        | some g => genreSearchQuery g
        | none => { query := .all, project := .empty, sort := DEFAULT_SORT }

/-- The order a sort specification imposes on movies, descending on the
sorted key as in the source's `-1` sort directions. -/
def sortRel (s : SortSpec) (a b : Movie) : Prop :=
  match s with
  | .byNumReviewsDesc => b.numReviews ≤ a.numReviews
  | .byTextScore => b.score ≤ a.score

instance (s : SortSpec) : DecidableRel (sortRel s) := fun a b => by
  unfold sortRel
  cases s <;> exact inferInstanceAs (Decidable (_ ≤ _))

/-- The driver's `find(query).project(project).sort(sort)` over collection
contents `db`: the matching documents in sort order. -/
def findSorted (db : List Movie) (q : Query) (s : SortSpec) : List Movie :=
  List.insertionSort (sortRel s) (db.filter (matchesQuery q))

/-- The driver's `countDocuments(query)` over collection contents `db`. -/
def countDocuments (db : List Movie) (q : Query) : Nat :=
  (db.filter (matchesQuery q)).length

/-- The result shape of `getMovies`. -/
structure GetMoviesResult where
  moviesList : List Movie
  totalNumMovies : Nat
deriving DecidableEq

/-- `MoviesDAO.getMovies({filters, page, moviesPerPage})` over collection
contents `db`. The three fallible awaits are modelled by failure flags: the
`find` call, the `toArray` of the display cursor, and `countDocuments`
(only ever issued when `page === 0`); either catch block returns
`{moviesList: [], totalNumMovies: 0}`. On success, `moviesList` is the
slice `skip(page * moviesPerPage).limit(moviesPerPage)` of the sorted
matches and `totalNumMovies` is the full match count when `page === 0` and
the literal `0` otherwise. -/
def getMovies (filters : Option Filters) (page moviesPerPage : Nat)
    (db : List Movie) (findFails toArrayFails countFails : Bool) :
    GetMoviesResult :=
  let qp := getMoviesQueryParams filters
  if findFails then { moviesList := [], totalNumMovies := 0 }
  else
    let pageSlice :=
      ((findSorted db qp.query qp.sort).drop (page * moviesPerPage)).take moviesPerPage
    if toArrayFails then { moviesList := [], totalNumMovies := 0 }
    else if page == 0 && countFails then { moviesList := [], totalNumMovies := 0 }
    else
      { moviesList := pageSlice,
        totalNumMovies := if page == 0 then countDocuments db qp.query else 0 }

/-- The literal pattern `getMovieByID`'s catch block matches against
`e.toString()` with `startsWith`. -/
def invalidIdPattern : String :=
  "Error: Argument passed in must be a single String of 12 bytes or a string of 24 hex characters"

/-- `MoviesDAO.getMovieByID(id)`: builds an aggregation matching
`ObjectId(id)` with a `$lookup` of the movie's comments and awaits its
first result; the aggregation is external, supplied as `aggregate` applied
to the parsed id. The catch block returns `null` when the caught error's
`toString()` starts with the known invalid-ObjectId message and re-throws
otherwise. -/
def getMovieByID (id : String)
    (aggregate : OId → Except JsError (Option Movie)) :
    Except JsError (Option Movie) :=
  match (match objectId id with
         | .ok oid => aggregate oid
         | .error e => .error e : Except JsError (Option Movie)) with
  | .ok r => .ok r
  | .error e =>
    if jsStartsWith (errorToString e) invalidIdPattern then .ok none
    else .error e

/-- The `$facet` document produced by the query pipeline of
`facetedSearch`: runtime and rating buckets plus the page of movies. -/
structure FacetDoc where
  runtime : List (String × Nat)
  rating : List (String × Nat)
  movies : List Movie
deriving DecidableEq

/-- A value `facetedSearch` resolves to when it does not throw: either the
merged `{...results, ...count}` document or the catch block's generic
`{error}` wrapper. -/
inductive FacetedSearchReturn where
  | result (facets : FacetDoc) (count : Nat)
  | errWrapper (msg : String)
deriving DecidableEq

/-- `MoviesDAO.facetedSearch({filters, page, moviesPerPage})`. A missing
filters object, or one whose `cast` key is absent or falsy, throws
(`Except.error`) before the driver is touched. Otherwise the query pipeline
and then the counting pipeline are awaited: `queryAgg` and `countAgg` are
these two external aggregate calls, and the second component of the result
counts how many of them were issued. Any driver failure is converted to the
fixed generic wrapper, dropping the underlying cause. -/
def facetedSearch (filters : Option Filters) (page moviesPerPage : Nat)
    (queryAgg : Except JsError FacetDoc) (countAgg : Except JsError Nat) :
    Except String FacetedSearchReturn × Nat :=
  match filters with
  | none => (.error "Must specify cast members to filter by.", 0)
  | some f =>
    match f.cast with
    | none => (.error "Must specify cast members to filter by.", 0)
    | some cv =>
      if !cv.truthy then (.error "Must specify cast members to filter by.", 0)
      else
        match queryAgg with
        | .error _ =>
          (.ok (.errWrapper "Results too large, be more restrictive in filter"), 1)
        | .ok facets =>
          match countAgg with
          | .error _ =>
            (.ok (.errWrapper "Results too large, be more restrictive in filter"), 2)
          | .ok n => (.ok (.result facets n), 2)

end MoviesDAO

/-! Helper lemmas about the driver-level operations. -/

/-- `updateOne` with a filter no stored document satisfies reports zero
matched and modified counts and leaves the collection unchanged. -/
theorem updateOne_no_match (state : List Comment) (oid : OId)
    (userEmail text date : String)
    (h : ∀ d ∈ state, ¬(d.id = oid ∧ d.email = userEmail)) :
    updateOne state oid userEmail text date = (state, ⟨0, 0⟩) := by
  induction state with
  | nil => rfl
  | cons c cs ih =>
    have hc : ¬(c.id = oid ∧ c.email = userEmail) := h c (List.mem_cons_self c cs)
    have ih2 := ih fun d hd => h d (List.mem_cons_of_mem c hd)
    simp [updateOne, hc, ih2]

/-- `deleteOne` with a filter no stored document satisfies reports a zero
deleted count and leaves the collection unchanged. -/
theorem deleteOne_no_match (state : List Comment) (oid : OId) (userEmail : String)
    (h : ∀ d ∈ state, ¬(d.id = oid ∧ d.email = userEmail)) :
    deleteOne state oid userEmail = (state, ⟨0⟩) := by
  induction state with
  | nil => rfl
  | cons c cs ih =>
    have hc : ¬(c.id = oid ∧ c.email = userEmail) := h c (List.mem_cons_self c cs)
    have ih2 := ih fun d hd => h d (List.mem_cons_of_mem c hd)
    simp [deleteOne, hc, ih2]

/-- C1: for every valid comment identifier and every owner email that does
not match the email stored on that comment, `updateComment` and
`deleteComment` report zero affected counts and leave the stored comments
unchanged, because the owning email is composed into the filter of the
`updateOne`/`deleteOne` call. -/
theorem comment_mutation_wrong_owner (state : List Comment) (c : Comment)
    (commentId userEmail text date : String)
    (hval : isValidObjectId commentId = true)
    (hnodup : (state.map Comment.id).Nodup)
    (hmem : c ∈ state) (hid : c.id = ⟨commentId⟩)
    (hemail : userEmail ≠ c.email) :
    CommentsDAO.updateComment state commentId userEmail text date
      = (state, .resp ⟨0, 0⟩)
    ∧ CommentsDAO.deleteComment state commentId userEmail
      = (state, .resp ⟨0⟩) := by
  have hnm : ∀ d ∈ state, ¬(d.id = (⟨commentId⟩ : OId) ∧ d.email = userEmail) := by
    intro d hd hcon
    have hdc : d = c := List.inj_on_of_nodup_map hnodup hd hmem (hcon.1.trans hid.symm)
    exact hemail (hdc ▸ hcon.2).symm
  have hobj : objectId commentId = .ok ⟨commentId⟩ := by simp [objectId, hval]
  have hupd := updateOne_no_match state ⟨commentId⟩ userEmail text date hnm
  have hdel := deleteOne_no_match state ⟨commentId⟩ userEmail hnm
  exact ⟨by simp [CommentsDAO.updateComment, hobj, hupd],
    by simp [CommentsDAO.deleteComment, hobj, hdel]⟩

/-- Witness for C1: a stored comment owned by `ada@x.com`; presenting its id
with `eve@x.com` matches nothing and mutates nothing. -/
theorem comment_mutation_wrong_owner_witness :
    CommentsDAO.updateComment
        [⟨⟨"aaaaaaaaaaaa"⟩, "Ada", "ada@x.com", ⟨"mmmmmmmmmmmm"⟩, "great film", "D1"⟩]
        "aaaaaaaaaaaa" "eve@x.com" "revised" "D2"
      = ([⟨⟨"aaaaaaaaaaaa"⟩, "Ada", "ada@x.com", ⟨"mmmmmmmmmmmm"⟩, "great film", "D1"⟩],
          .resp ⟨0, 0⟩)
    ∧ CommentsDAO.deleteComment
        [⟨⟨"aaaaaaaaaaaa"⟩, "Ada", "ada@x.com", ⟨"mmmmmmmmmmmm"⟩, "great film", "D1"⟩]
        "aaaaaaaaaaaa" "eve@x.com"
      = ([⟨⟨"aaaaaaaaaaaa"⟩, "Ada", "ada@x.com", ⟨"mmmmmmmmmmmm"⟩, "great film", "D1"⟩],
          .resp ⟨0⟩) :=
  comment_mutation_wrong_owner
    [⟨⟨"aaaaaaaaaaaa"⟩, "Ada", "ada@x.com", ⟨"mmmmmmmmmmmm"⟩, "great film", "D1"⟩]
    ⟨⟨"aaaaaaaaaaaa"⟩, "Ada", "ada@x.com", ⟨"mmmmmmmmmmmm"⟩, "great film", "D1"⟩
    "aaaaaaaaaaaa" "eve@x.com" "revised" "D2"
    (by decide) (by decide) (by simp) rfl (by decide)

/-- C3: `facetedSearch` with an empty (absent or null) filter is rejected
with an error, and zero aggregate calls are issued. -/
theorem facetedSearch_empty_filter_rejected (page moviesPerPage : Nat)
    (queryAgg : Except JsError MoviesDAO.FacetDoc) (countAgg : Except JsError Nat) :
    MoviesDAO.facetedSearch none page moviesPerPage queryAgg countAgg
      = (.error "Must specify cast members to filter by.", 0) := rfl

/-- C10: `facetedSearch` rejects every filter lacking a `cast` key by
throwing (`Except.error`), not by returning an error wrapper, and issues no
aggregate call. -/
theorem facetedSearch_missing_cast_throws (f : Filters) (page moviesPerPage : Nat)
    (queryAgg : Except JsError MoviesDAO.FacetDoc) (countAgg : Except JsError Nat)
    (hcast : f.cast = none) :
    MoviesDAO.facetedSearch (some f) page moviesPerPage queryAgg countAgg
      = (.error "Must specify cast members to filter by.", 0) := by
  obtain ⟨ft, fc, fg⟩ := f
  cases hcast
  rfl

/-- Witness for C10: a genre-only filter is thrown out before any driver
call. -/
theorem facetedSearch_missing_cast_throws_witness :
    MoviesDAO.facetedSearch (some { genre := some (.arr ["Drama"]) }) 0 20
        (.ok ⟨[], [], []⟩) (.ok 0)
      = (.error "Must specify cast members to filter by.", 0) :=
  facetedSearch_missing_cast_throws { genre := some (.arr ["Drama"]) } 0 20
    (.ok ⟨[], [], []⟩) (.ok 0) rfl

/-- C7: once the cast filter precondition passes, a failure of either
aggregate call makes `facetedSearch` resolve to the fixed generic wrapper,
with the underlying cause dropped. -/
theorem facetedSearch_generic_error (f : Filters) (cv : JsStrings)
    (page moviesPerPage : Nat) (e e2 : JsError) (facets : MoviesDAO.FacetDoc)
    (countAgg : Except JsError Nat)
    (hcast : f.cast = some cv) (htruthy : cv.truthy = true) :
    (MoviesDAO.facetedSearch (some f) page moviesPerPage (.error e) countAgg).1
      = .ok (.errWrapper "Results too large, be more restrictive in filter")
    ∧ (MoviesDAO.facetedSearch (some f) page moviesPerPage (.ok facets) (.error e2)).1
      = .ok (.errWrapper "Results too large, be more restrictive in filter") := by
  obtain ⟨ft, fc, fg⟩ := f
  cases hcast
  constructor <;> simp [MoviesDAO.facetedSearch, htruthy]

/-- Witness for C7: a cast filter with each of the two aggregate calls
failing in turn. -/
theorem facetedSearch_generic_error_witness :
    (MoviesDAO.facetedSearch (some { cast := some (.arr ["A"]) }) 0 20
        (.error ⟨"agg failed"⟩) (.ok 5)).1
      = .ok (.errWrapper "Results too large, be more restrictive in filter")
    ∧ (MoviesDAO.facetedSearch (some { cast := some (.arr ["A"]) }) 0 20
        (.ok ⟨[], [], []⟩) (.error ⟨"count failed"⟩)).1
      = .ok (.errWrapper "Results too large, be more restrictive in filter") :=
  facetedSearch_generic_error { cast := some (.arr ["A"]) } (.arr ["A"]) 0 20
    ⟨"agg failed"⟩ ⟨"count failed"⟩ ⟨[], [], []⟩ (.ok 5) rfl rfl

/-- C6: when the find call, the toArray call, or (on page 0) the
countDocuments call fails, `getMovies` returns the empty result set instead
of propagating the error. -/
theorem getMovies_driver_failure_empty (filters : Option Filters)
    (page moviesPerPage : Nat) (db : List Movie)
    (findFails toArrayFails countFails : Bool)
    (h : findFails = true ∨ toArrayFails = true ∨ (page = 0 ∧ countFails = true)) :
    MoviesDAO.getMovies filters page moviesPerPage db findFails toArrayFails countFails
      = { moviesList := [], totalNumMovies := 0 } := by
  rcases h with h | h | ⟨hp, hc⟩
  · simp [MoviesDAO.getMovies, h]
  · simp [MoviesDAO.getMovies, h]
  · subst hp
    cases findFails <;> cases toArrayFails <;> simp [MoviesDAO.getMovies, hc]

/-- Witness for C6: a failing find call yields the empty result set. -/
theorem getMovies_driver_failure_empty_witness :
    MoviesDAO.getMovies none 0 20 [] true false false
      = { moviesList := [], totalNumMovies := 0 } :=
  getMovies_driver_failure_empty none 0 20 [] true false false (Or.inl rfl)

/-- C8: once the guarded collection handle is set, `injectDB` of either DAO
returns immediately and leaves its stored state unchanged. -/
theorem injectDB_idempotent (ch : CollectionHandle)
    (conn : Except JsError CollectionHandle) (ms : MoviesState)
    (mh : CollectionHandle) (dbCall : Except JsError DbHandle)
    (collectionCall : Except JsError CollectionHandle)
    (hm : ms.movies = some mh) :
    CommentsDAO.injectDB (some ch) conn = some ch
    ∧ MoviesDAO.injectDB ms dbCall collectionCall = ms := by
  constructor
  · rfl
  · unfold MoviesDAO.injectDB
    rw [hm]

/-- The error thrown by the `ObjectId` constructor stringifies to exactly
the pattern `getMovieByID`'s catch block matches with `startsWith`. -/
theorem invalidId_pattern_startsWith :
    jsStartsWith (errorToString ⟨invalidIdMessage⟩) MoviesDAO.invalidIdPattern = true := by
  decide

/-- C2: for every malformed identifier string, `getMovieByID` returns null
(`.ok none`) and never throws, the malformed case being detected by
string-matching the known driver error message; any other failure of the
awaited aggregation is re-thrown to the caller unchanged. -/
theorem getMovieByID_malformed_null_else_rethrow (id : String)
    (aggregate : OId → Except JsError (Option Movie)) (e : JsError) :
    (isValidObjectId id = false → MoviesDAO.getMovieByID id aggregate = .ok none)
    ∧ (isValidObjectId id = true → aggregate ⟨id⟩ = .error e →
        jsStartsWith (errorToString e) MoviesDAO.invalidIdPattern = false →
        MoviesDAO.getMovieByID id aggregate = .error e) := by
  constructor
  · intro hinv
    have hobj : objectId id = .error ⟨invalidIdMessage⟩ := by simp [objectId, hinv]
    simp [MoviesDAO.getMovieByID, hobj, invalidId_pattern_startsWith]
  · intro hval hagg hns
    have hobj : objectId id = .ok ⟨id⟩ := by simp [objectId, hval]
    simp [MoviesDAO.getMovieByID, hobj, hagg, hns]

/-- Witness for C2: a 9-character identifier yields null under any
aggregation outcome; a well-formed identifier with a failing aggregation
re-throws the driver error. -/
theorem getMovieByID_malformed_null_else_rethrow_witness :
    MoviesDAO.getMovieByID "not-an-id" (fun _ => .ok none) = .ok none
    ∧ MoviesDAO.getMovieByID "aaaaaaaaaaaa" (fun _ => .error ⟨"boom"⟩)
      = .error ⟨"boom"⟩ :=
  ⟨(getMovieByID_malformed_null_else_rethrow "not-an-id" (fun _ => .ok none)
      ⟨"boom"⟩).1 (by decide),
   (getMovieByID_malformed_null_else_rethrow "aaaaaaaaaaaa" (fun _ => .error ⟨"boom"⟩)
      ⟨"boom"⟩).2 (by decide) rfl (by decide)⟩

/-- C9: `getMovies` picks its query params by fixed precedence — a `text`
key wins over `cast`, which wins over `genre` — and a filters object with
none of the three keys behaves exactly like no filter: default query, empty
projection, default sort. -/
theorem getMovies_filter_precedence (f : Filters) (t : String) (c g : JsStrings) :
    (f.text = some t →
        MoviesDAO.getMoviesQueryParams (some f) = MoviesDAO.textSearchQuery t)
    ∧ (f.text = none → f.cast = some c →
        MoviesDAO.getMoviesQueryParams (some f) = MoviesDAO.castSearchQuery c)
    ∧ (f.text = none → f.cast = none → f.genre = some g →
        MoviesDAO.getMoviesQueryParams (some f) = MoviesDAO.genreSearchQuery g)
    ∧ (f.text = none → f.cast = none → f.genre = none →
        MoviesDAO.getMoviesQueryParams (some f) = MoviesDAO.getMoviesQueryParams none)
    ∧ MoviesDAO.getMoviesQueryParams none
        = { query := .all, project := .empty, sort := DEFAULT_SORT } := by
  obtain ⟨ft, fc, fg⟩ := f
  refine ⟨fun h1 => ?_, fun h1 h2 => ?_, fun h1 h2 h3 => ?_, fun h1 h2 h3 => ?_, rfl⟩
  · cases h1; rfl
  · cases h1; cases h2; rfl
  · cases h1; cases h2; cases h3; rfl
  · cases h1; cases h2; cases h3; rfl

/-- Witness for C9: with all three keys present the text query is chosen;
dropping keys one by one falls through to cast, then genre, then the
no-filter defaults. -/
theorem getMovies_filter_precedence_witness :
    MoviesDAO.getMoviesQueryParams
        (some { text := some "war", cast := some (.str "A"), genre := some (.arr ["G"]) })
      = MoviesDAO.textSearchQuery "war"
    ∧ MoviesDAO.getMoviesQueryParams
        (some { cast := some (.str "A"), genre := some (.arr ["G"]) })
      = MoviesDAO.castSearchQuery (.str "A")
    ∧ MoviesDAO.getMoviesQueryParams (some { genre := some (.arr ["G"]) })
      = MoviesDAO.genreSearchQuery (.arr ["G"])
    ∧ MoviesDAO.getMoviesQueryParams (some ({} : Filters))
      = MoviesDAO.getMoviesQueryParams none :=
  ⟨(getMovies_filter_precedence
      { text := some "war", cast := some (.str "A"), genre := some (.arr ["G"]) }
      "war" (.str "A") (.arr ["G"])).1 rfl,
   (getMovies_filter_precedence
      { cast := some (.str "A"), genre := some (.arr ["G"]) }
      "war" (.str "A") (.arr ["G"])).2.1 rfl rfl,
   (getMovies_filter_precedence { genre := some (.arr ["G"]) }
      "war" (.str "A") (.arr ["G"])).2.2.1 rfl rfl rfl,
   (getMovies_filter_precedence ({} : Filters)
      "war" (.str "A") (.arr ["G"])).2.2.2.1 rfl rfl rfl⟩

/-- C4: on a successful `getMovies` call, `moviesList` is the requested
page of the sorted matches; `totalNumMovies` is the full count of matching
documents when `page = 0` (hence non-zero when matches exist) and the
literal `0` when `page > 0`. -/
theorem getMovies_total_count (filters : Option Filters)
    (page moviesPerPage : Nat) (db : List Movie) :
    (MoviesDAO.getMovies filters page moviesPerPage db false false false).moviesList
      = ((MoviesDAO.findSorted db (MoviesDAO.getMoviesQueryParams filters).query
            (MoviesDAO.getMoviesQueryParams filters).sort).drop
          (page * moviesPerPage)).take moviesPerPage
    ∧ (page = 0 →
        (MoviesDAO.getMovies filters page moviesPerPage db false false false).totalNumMovies
          = MoviesDAO.countDocuments db (MoviesDAO.getMoviesQueryParams filters).query)
    ∧ ((page = 0
          ∧ ∃ m ∈ db, matchesQuery (MoviesDAO.getMoviesQueryParams filters).query m = true) →
        (MoviesDAO.getMovies filters page moviesPerPage db false false false).totalNumMovies
          ≠ 0)
    ∧ (page ≠ 0 →
        (MoviesDAO.getMovies filters page moviesPerPage db false false false).totalNumMovies
          = 0) := by
  refine ⟨?_, ?_, ?_, ?_⟩
  · simp [MoviesDAO.getMovies]
  · intro hp
    subst hp
    simp [MoviesDAO.getMovies]
  · rintro ⟨hp, m, hm, hmq⟩
    subst hp
    have heq : (MoviesDAO.getMovies filters 0 moviesPerPage db false false false).totalNumMovies
        = MoviesDAO.countDocuments db (MoviesDAO.getMoviesQueryParams filters).query := by
      simp [MoviesDAO.getMovies]
    rw [heq]
    unfold MoviesDAO.countDocuments
    intro h0
    exact List.ne_nil_of_mem (List.mem_filter.mpr ⟨hm, hmq⟩)
      (List.length_eq_zero.mp h0)
  · intro hp
    have hb : (page == 0) = false := by
      simpa using hp
    simp [MoviesDAO.getMovies, hb]

/-- Witness for C4: a one-movie collection under no filter; page 0 carries
the (non-zero) full count, page 1 carries a zero count. -/
theorem getMovies_total_count_witness :
    (MoviesDAO.getMovies none 0 20 [⟨"T", ["A"], ["G"], ["war"], 5, 0⟩]
        false false false).totalNumMovies
      = MoviesDAO.countDocuments [⟨"T", ["A"], ["G"], ["war"], 5, 0⟩]
          (MoviesDAO.getMoviesQueryParams none).query
    ∧ (MoviesDAO.getMovies none 0 20 [⟨"T", ["A"], ["G"], ["war"], 5, 0⟩]
        false false false).totalNumMovies ≠ 0
    ∧ (MoviesDAO.getMovies none 1 20 [⟨"T", ["A"], ["G"], ["war"], 5, 0⟩]
        false false false).totalNumMovies = 0 :=
  ⟨(getMovies_total_count none 0 20 [⟨"T", ["A"], ["G"], ["war"], 5, 0⟩]).2.1 rfl,
   (getMovies_total_count none 0 20 [⟨"T", ["A"], ["G"], ["war"], 5, 0⟩]).2.2.1
     ⟨rfl, ⟨"T", ["A"], ["G"], ["war"], 5, 0⟩, by decide, rfl⟩,
   (getMovies_total_count none 1 20 [⟨"T", ["A"], ["G"], ["war"], 5, 0⟩]).2.2.2
     (by decide)⟩

/-- C5: a successful `mostActiveCommenters` aggregation returns at most 20
entries, ordered by count descending, each pairing a commenter email with
the number of comments bearing it. -/
theorem mostActiveCommenters_top20_sorted (cs : List Comment)
    (r : List (String × Nat))
    (h : CommentsDAO.mostActiveCommenters cs none = .resp r) :
    r.length ≤ 20
    ∧ List.Pairwise (fun a b : String × Nat => b.2 ≤ a.2) r
    ∧ ∀ p ∈ r, p.1 ∈ cs.map Comment.email
        ∧ p.2 = (cs.map Comment.email).count p.1 := by
  have hr : r = (List.insertionSort countDescRel (groupByEmail cs)).take 20 := by
    have h2 := h
    simp [CommentsDAO.mostActiveCommenters] at h2
    exact h2.symm
  subst hr
  refine ⟨List.length_take_le _ _, ?_, ?_⟩
  · have hs : List.Sorted countDescRel (List.insertionSort countDescRel (groupByEmail cs)) :=
      List.sorted_insertionSort countDescRel (groupByEmail cs)
    exact List.Pairwise.sublist (List.take_sublist _ _) hs
  · intro p hp
    have hp1 : p ∈ List.insertionSort countDescRel (groupByEmail cs) :=
      List.mem_of_mem_take hp
    have hp2 : p ∈ groupByEmail cs :=
      (List.perm_insertionSort countDescRel (groupByEmail cs)).mem_iff.mp hp1
    unfold groupByEmail at hp2
    rcases List.mem_map.mp hp2 with ⟨e, he, rfl⟩
    exact ⟨List.mem_dedup.mp he, rfl⟩

/-- Witness for C5: three comments by two commenters; the aggregation lists
the two-comment email first, then the one-comment email. -/
theorem mostActiveCommenters_top20_sorted_witness :
    ([("b", 2), ("a", 1)] : List (String × Nat)).length ≤ 20
    ∧ List.Pairwise (fun a b : String × Nat => b.2 ≤ a.2)
        ([("b", 2), ("a", 1)] : List (String × Nat))
    ∧ ∀ p ∈ ([("b", 2), ("a", 1)] : List (String × Nat)),
        p.1 ∈ ([⟨⟨"i1"⟩, "N1", "b", ⟨"m1"⟩, "t1", "d1"⟩,
                ⟨⟨"i2"⟩, "N2", "a", ⟨"m2"⟩, "t2", "d2"⟩,
                ⟨⟨"i3"⟩, "N3", "b", ⟨"m3"⟩, "t3", "d3"⟩] : List Comment).map Comment.email
        ∧ p.2 = (([⟨⟨"i1"⟩, "N1", "b", ⟨"m1"⟩, "t1", "d1"⟩,
                ⟨⟨"i2"⟩, "N2", "a", ⟨"m2"⟩, "t2", "d2"⟩,
                ⟨⟨"i3"⟩, "N3", "b", ⟨"m3"⟩, "t3", "d3"⟩] : List Comment).map Comment.email).count p.1 :=
  mostActiveCommenters_top20_sorted
    [⟨⟨"i1"⟩, "N1", "b", ⟨"m1"⟩, "t1", "d1"⟩,
     ⟨⟨"i2"⟩, "N2", "a", ⟨"m2"⟩, "t2", "d2"⟩,
     ⟨⟨"i3"⟩, "N3", "b", ⟨"m3"⟩, "t3", "d3"⟩]
    [("b", 2), ("a", 1)] (by decide)

/-- Witness for C8: established handles survive a second `injectDB`, even
one whose driver calls would produce different handles or fail. -/
theorem injectDB_idempotent_witness :
    CommentsDAO.injectDB (some ⟨"mflix", "comments"⟩) (.error ⟨"down"⟩)
      = some ⟨"mflix", "comments"⟩
    ∧ MoviesDAO.injectDB ⟨some ⟨"mflix"⟩, some ⟨"mflix", "movies"⟩⟩
        (.error ⟨"down"⟩) (.ok ⟨"mflix", "other"⟩)
      = ⟨some ⟨"mflix"⟩, some ⟨"mflix", "movies"⟩⟩ :=
  injectDB_idempotent ⟨"mflix", "comments"⟩ (.error ⟨"down"⟩)
    ⟨some ⟨"mflix"⟩, some ⟨"mflix", "movies"⟩⟩ ⟨"mflix", "movies"⟩
    (.error ⟨"down"⟩) (.ok ⟨"mflix", "other"⟩) rfl

end MFlix
